import Mathlib

/-!
Shallow embedding of the Facebook provider of uppy companion
(src/packages/@uppy/companion/src/server/provider/facebook/index.js).

Stateful callback code is embedded as pure functions taking the outcomes of
the remote requests as oracle arguments and returning the ordered trace of
remote calls made together with what the completion callback received.
A JS exception escaping a callback is modelled by the Except.error side.
-/

/-- Error values that flow through the provider: the two classified error
classes from the error module, and a plain JS Error (used both for transport
errors handed to callbacks and for thrown TypeErrors). -/
inductive FbError where
  | providerAuthError : FbError
  | providerApiError (message : Option String) (statusCode : Nat) : FbError
  | jsError (message : String) : FbError
deriving DecidableEq

/-- An error object inside a Facebook error response body; code and message
may each be absent (undefined). -/
structure ErrorObj where
  code : Option Int
  message : Option String
deriving DecidableEq

/-- One image variant of a media item, as in the images array of a Facebook
photo node. -/
structure ImageVariant where
  width : Nat
  height : Nat
  source : String
deriving DecidableEq

/-- A parsed JS response body. Each field is none when the property is absent
(undefined); a truthy body that is not even a JSON object (for example a plain
HTML error page string) is a Body with every field none. -/
structure Body where
  error : Option ErrorObj
  email : Option String
  images : Option (List ImageVariant)
deriving DecidableEq

/-- A resp object as the provider reads it: the HTTP status code and the body;
body = none models a falsy (absent or empty) resp.body. -/
structure Resp where
  statusCode : Nat
  body : Option Body
deriving DecidableEq

/-- The value of the static authProvider getter. -/
def Facebook.authProvider : String := "facebook"

/-- The fallback message built by the classifier:
request to facebook returned statusCode. -/
def Facebook.fallbackMessage (statusCode : Nat) : String :=
  "request to " ++ Facebook.authProvider ++ " returned " ++ toString statusCode

/-- Embedding of the classifier method of the provider, called on every
failure path. Mirrors the source line by line: when resp is present and
resp.body is truthy, the code first reads resp.body.error.code, which throws
a TypeError (the Except.error side) when the body carries no error object;
a code of 190 yields ProviderAuthError; otherwise a ProviderApiError is built
whose message is the error objects message when the body has an error object
and the fallback message otherwise; when resp is absent the raw transport
error argument is returned unchanged. -/
def Facebook.classify (err : Option FbError) (resp : Option Resp) :
    Except FbError (Option FbError) :=
  match resp with
  | some r =>
      match r.body with
      | some b =>
          match b.error with
          | some e =>
              if e.code = some 190 then
                Except.ok (some FbError.providerAuthError)
              else
                Except.ok (some (FbError.providerApiError e.message r.statusCode))
          | none =>
              Except.error (FbError.jsError
                "TypeError: Cannot read property code of undefined")
      | none =>
          Except.ok (some (FbError.providerApiError
            (some (Facebook.fallbackMessage r.statusCode)) r.statusCode))
  | none => Except.ok err

/-- Arguments the HTTP client hands a request callback: either a transport
error with no response at all, or a response (the error argument is null)
with its status code and parsed body. -/
inductive CbArgs where
  | failure (err : FbError)
  | response (statusCode : Nat) (body : Option Body)
deriving DecidableEq

/-- Whether the callback arguments take the success branch of the guard
used at every call site: no error and status code 200. -/
def CbArgs.isSuccess : CbArgs → Bool
  | .response 200 _ => true
  | _ => false

/-- The classification a failure branch performs on its callback arguments. -/
def Facebook.classifyCb (cb : CbArgs) : Except FbError (Option FbError) :=
  match cb with
  | .failure e => Facebook.classify (some e) none
  | .response s b => Facebook.classify none (some { statusCode := s, body := b })

/-- Modelled from the spec: the resolution of an image variant, the pixel
count width times height, used as the ascending sort key of sortImages. -/
def ImageVariant.resolution (i : ImageVariant) : Nat := i.width * i.height

/-- Modelled from the spec: sortImages of the adapter module (the adapter
source file is not among the given sources) orders an items image variants by
ascending resolution with a stable sort, ties kept in original order; embedded
as an insertion sort that keeps an element before later equal ones. -/
def sortImages (images : List ImageVariant) : List ImageVariant :=
  images.insertionSort (fun a b => a.resolution ≤ b.resolution)

/-- Embedding of the private media URL selection of the provider: sort the
bodys images and take the source of the last element. Reading images of an
undefined body, or source of the undefined last element of an empty sorted
array, throws a TypeError. -/
def Facebook.getMediaUrl (body : Option Body) : Except FbError String :=
  match body with
  | none => Except.error (FbError.jsError
      "TypeError: Cannot read property images of undefined")
  | some b =>
      match b.images with
      | none => Except.error (FbError.jsError
          "TypeError: Cannot read property slice of undefined")
      | some imgs =>
          match (sortImages imgs).getLast? with
          | some img => Except.ok img.source
          | none => Except.error (FbError.jsError
              "TypeError: Cannot read property source of undefined")

/-- The query argument of list: an object with a cursor, default null. -/
structure Query where
  cursor : Option String
deriving DecidableEq

/-- Modelled from the spec: the adapter operations adaptData consumes (the
adapter source file is not among the given sources). Each extractor maps one
raw item to one canonical field, returning none rather than failing when the
field is absent; getItemSubList locates the raw items in the response
envelope; getNextPagePath derives the next cursor or none. They are abstract
parameters here, as adaptData uses them opaquely. -/
structure Adapter (ρ ι : Type) where
  getItemSubList : ρ → List ι
  isFolder : ι → Bool
  getItemIcon : ι → Option String
  getItemName : ι → Option String
  getMimeType : ι → Option String
  getItemId : ι → Option String
  getItemThumbnailUrl : ι → Option String
  getItemRequestPath : ι → Option String
  getItemModifiedDate : ι → Option String
  getNextPagePath : ρ → Query → Option String → Option String

/-- The canonical item shape assembled by adaptData. -/
structure CanonicalItem where
  isFolder : Bool
  icon : Option String
  name : Option String
  mimeType : Option String
  size : Option Nat
  id : Option String
  thumbnail : Option String
  requestPath : Option String
  modifiedDate : Option String
deriving DecidableEq

/-- The list result shape assembled by adaptData. -/
structure ListResult where
  username : Option String
  items : List CanonicalItem
  nextPagePath : Option String
deriving DecidableEq

/-- Embedding of adaptData of the provider: builds the ListResult from the raw
response, pushing one canonical item per raw item; the size field is the
literal null for every item. -/
def Facebook.adaptData {ρ ι : Type} (A : Adapter ρ ι) (res : ρ)
    (username : Option String) (directory : Option String)
    (currentQuery : Query) : ListResult :=
  { username := username
    items := (A.getItemSubList res).map (fun item =>
      { isFolder := A.isFolder item
        icon := A.getItemIcon item
        name := A.getItemName item
        mimeType := A.getMimeType item
        size := none
        id := A.getItemId item
        thumbnail := A.getItemThumbnailUrl item
        requestPath := A.getItemRequestPath item
        modifiedDate := A.getItemModifiedDate item })
    nextPagePath := A.getNextPagePath res currentQuery directory }

/-- One remote request made by the provider, with the request data the source
builds: the listing request with its path, fields and cursor, or the identity
request with its fields. -/
inductive RemoteCall where
  | listing (path : String) (fields : String) (after : Option String)
  | identity (fields : String)
deriving DecidableEq

/-- The path list requests: me/albums at the root, directory/photos inside a
directory. -/
def Facebook.listPath (directory : Option String) : String :=
  match directory with
  | none => "me/albums"
  | some d => d ++ "/photos"

/-- The fields query string list requests build, depending on whether a
directory is given. -/
def Facebook.listFields (directory : Option String) : String :=
  match directory with
  | none => "name,cover_photo,created_time,type"
  | some _ => "icon,images,name,width,height,created_time"

/-- The listing remote call a list invocation makes. -/
def Facebook.listingCall (directory : Option String) (query : Query) : RemoteCall :=
  RemoteCall.listing (Facebook.listPath directory) (Facebook.listFields directory)
    query.cursor

/-- What a completion callback received: done(err) or done(null, v). -/
inductive Delivery (α : Type) where
  | failed (err : Option FbError)
  | delivered (v : α)
deriving DecidableEq

/-- Embedding of the private username lookup of the provider: requests me with
fields email and delivers body.email on success; on failure classifies and
delivers the error. Reading email of an undefined body throws. Returns the
remote calls made and the delivery. -/
def Facebook.getUsername (cb : CbArgs) :
    Except FbError (List RemoteCall × Delivery (Option String)) :=
  match cb with
  | .failure e =>
      match Facebook.classify (some e) none with
      | .error c => Except.error c
      | .ok e2 => Except.ok ([RemoteCall.identity "email"], Delivery.failed e2)
  | .response s b =>
      if s = 200 then
        match b with
        | some body =>
            Except.ok ([RemoteCall.identity "email"], Delivery.delivered body.email)
        | none => Except.error (FbError.jsError
            "TypeError: Cannot read property email of undefined")
      else
        match Facebook.classify none (some { statusCode := s, body := b }) with
        | .error c => Except.error c
        | .ok e2 => Except.ok ([RemoteCall.identity "email"], Delivery.failed e2)

/-- Embedding of list of the provider, with the outcomes of the listing
request and of the identity request supplied as oracles. On a listing failure
the classified error is delivered and no further call is made; on a 200
listing the username lookup runs and either its failure is delivered or
adaptData builds the result. Returns the ordered remote calls made and the
delivery. -/
def Facebook.list {ι : Type} (A : Adapter (Option Body) ι)
    (directory : Option String) (query : Query) (listingCb userCb : CbArgs) :
    Except FbError (List RemoteCall × Delivery ListResult) :=
  match listingCb with
  | .failure e =>
      match Facebook.classify (some e) none with
      | .error c => Except.error c
      | .ok e2 => Except.ok ([Facebook.listingCall directory query], Delivery.failed e2)
  | .response s b =>
      if s = 200 then
        match Facebook.getUsername userCb with
        | .error c => Except.error c
        | .ok (ucalls, Delivery.failed e2) =>
            Except.ok (Facebook.listingCall directory query :: ucalls, Delivery.failed e2)
        | .ok (ucalls, Delivery.delivered username) =>
            Except.ok (Facebook.listingCall directory query :: ucalls,
              Delivery.delivered (Facebook.adaptData A b username directory query))
      else
        match Facebook.classify none (some { statusCode := s, body := b }) with
        | .error c => Except.error c
        | .ok e2 => Except.ok ([Facebook.listingCall directory query], Delivery.failed e2)

/-- What the size completion callback received: done(err), done(null, size),
or done() with neither an error nor a size. -/
inductive SizeDelivery where
  | failed (err : Option FbError)
  | delivered (n : Nat)
  | unknown
deriving DecidableEq

/-- Embedding of size of the provider: the metadata request outcome and the
getURLMeta probe outcome are oracles. A metadata failure is classified and
delivered; on success the media URL is selected (which may throw), then a
probe success delivers the size and a probe rejection is swallowed into a
bare done(). -/
def Facebook.size (metaCb : CbArgs) (probe : Except FbError Nat) :
    Except FbError SizeDelivery :=
  match metaCb with
  | .failure e =>
      match Facebook.classify (some e) none with
      | .error c => Except.error c
      | .ok e2 => Except.ok (SizeDelivery.failed e2)
  | .response s b =>
      if s = 200 then
        match Facebook.getMediaUrl b with
        | .error c => Except.error c
        | .ok _url =>
            match probe with
            | .ok n => Except.ok (SizeDelivery.delivered n)
            | .error _e => Except.ok SizeDelivery.unknown
      else
        match Facebook.classify none (some { statusCode := s, body := b }) with
        | .error c => Except.error c
        | .ok e2 => Except.ok (SizeDelivery.failed e2)

/-- Embedding of thumbnail of the provider: it builds a plain Error saying the
call is not implemented and delivers it immediately; the empty first component
records that no remote call is made. -/
def Facebook.thumbnail {α : Type} (_input : α) :
    List RemoteCall × Delivery Unit :=
  ([], Delivery.failed (some (FbError.jsError "call to thumbnail is not implemented")))

/-- One event of the media body stream: a data chunk, the end event, or the
error event. -/
inductive StreamEvent where
  | chunk (c : String)
  | streamEnd
  | streamError (e : FbError)
deriving DecidableEq

/-- The outcome of opening the media URL request: an error event before any
response, or a response with a status code followed by body stream events. -/
inductive StreamOutcome where
  | connError (e : FbError)
  | response (statusCode : Nat) (events : List StreamEvent)
deriving DecidableEq

/-- One onData invocation of download: its error argument and chunk argument. -/
structure Signal where
  error : Option FbError
  chunk : Option String
deriving DecidableEq

/-- The onData calls one stream event produces under the handlers download
attaches: a data event is forwarded only when the response status was 200
(the data handler is only attached on that branch); the end event yields
onData(null, null); the error event yields onData(err). -/
def Facebook.eventSignals (is200 : Bool) (ev : StreamEvent) : List Signal :=
  match ev with
  | .chunk c => if is200 then [{ error := none, chunk := some c }] else []
  | .streamEnd => [{ error := none, chunk := none }]
  | .streamError e => [{ error := some e, chunk := none }]

/-- The onData calls a list of stream events produces, in order. -/
def Facebook.streamSignals (is200 : Bool) (events : List StreamEvent) : List Signal :=
  events.flatMap (Facebook.eventSignals is200)

/-- Embedding of download of the provider: the metadata request outcome and
the media stream outcome are oracles; returns the ordered list of onData
calls. A metadata failure is classified and signalled; on success the media
URL is selected (which may throw) and its stream opened: a non-200 stream
response signals the classified error first (the response event fires before
the body events), and the remaining events are processed with no data handler
attached. -/
def Facebook.download (metaCb : CbArgs) (stream : StreamOutcome) :
    Except FbError (List Signal) :=
  match metaCb with
  | .failure e =>
      match Facebook.classify (some e) none with
      | .error c => Except.error c
      | .ok e2 => Except.ok [{ error := e2, chunk := none }]
  | .response s b =>
      if s = 200 then
        match Facebook.getMediaUrl b with
        | .error c => Except.error c
        | .ok _url =>
            match stream with
            | .connError e => Except.ok [{ error := some e, chunk := none }]
            | .response s2 events =>
                if s2 = 200 then
                  Except.ok (Facebook.streamSignals true events)
                else
                  match Facebook.classify none (some { statusCode := s2, body := none }) with
                  | .error c => Except.error c
                  | .ok e2 =>
                      Except.ok ({ error := e2, chunk := none } ::
                        Facebook.streamSignals false events)
      else
        match Facebook.classify none (some { statusCode := s, body := b }) with
        | .error c => Except.error c
        | .ok e2 => Except.ok [{ error := e2, chunk := none }]

/-- Decidable equality of Except values, used to evaluate concrete runs. -/
instance {ε α : Type} [DecidableEq ε] [DecidableEq α] :
    DecidableEq (Except ε α) := fun x y =>
  match x, y with
  | Except.error a, Except.error b =>
      if h : a = b then isTrue (by rw [h]) else isFalse (fun hh => h (by injection hh))
  | Except.error _, Except.ok _ => isFalse (fun hh => Except.noConfusion hh)
  | Except.ok _, Except.error _ => isFalse (fun hh => Except.noConfusion hh)
  | Except.ok a, Except.ok b =>
      if h : a = b then isTrue (by rw [h]) else isFalse (fun hh => h (by injection hh))

/-- Projection resp.body of an optional response. -/
def bodyOf (resp : Option Resp) : Option Body := resp.bind Resp.body

/-- Projection resp.body.error of an optional response. -/
def errorObjOf (resp : Option Resp) : Option ErrorObj := (bodyOf resp).bind Body.error

/-- Projection resp.body.error.code of an optional response; the auth marker
is present exactly when this is some 190. -/
def authCodeOf (resp : Option Resp) : Option Int := (errorObjOf resp).bind ErrorObj.code

/-- The branch policy of the classifier in the words of the spec, for inputs
without the auth marker: a response with an error object in its body yields an
ApiError carrying that objects message and the status code; a response without
one yields an ApiError carrying the fallback message and the status code; no
response yields the raw transport error unchanged. Stated separately from the
source embedding so the two can be compared. -/
def specClassify (err : Option FbError) (resp : Option Resp) : Option FbError :=
  match resp with
  | some r =>
      match r.body.bind Body.error with
      | some e => some (FbError.providerApiError e.message r.statusCode)
      | none => some (FbError.providerApiError
          (some (Facebook.fallbackMessage r.statusCode)) r.statusCode)
  | none => err

/-- Whether an onData call signals an error. -/
def Signal.isError (s : Signal) : Bool := s.error.isSome

/-- Whether an onData call carries a data chunk: no error, chunk present. -/
def Signal.isChunk (s : Signal) : Bool := s.error.isNone && s.chunk.isSome

/-- Whether an onData call is the completion signal onData(null, null). -/
def Signal.isDone (s : Signal) : Bool := s.error.isNone && s.chunk.isNone

/-- The ordering discipline of the download signals: strictly after an error
signal no data chunk is delivered, and strictly after the completion signal no
error is delivered. -/
def downloadOrdered (sigs : List Signal) : Prop :=
  sigs.Pairwise (fun a b =>
    (a.isError = true → b.isChunk = false) ∧ (a.isDone = true → b.isError = false))

/-- A well-formed media body stream: zero or more data chunks followed by one
terminal event, either the end event or the error event. -/
def WFEvents (events : List StreamEvent) : Prop :=
  (∃ cs : List String, events = cs.map StreamEvent.chunk ++ [StreamEvent.streamEnd]) ∨
  (∃ (cs : List String) (e : FbError),
    events = cs.map StreamEvent.chunk ++ [StreamEvent.streamError e])

/-- A well-formed stream outcome: a connection error alone, or a response
whose body events are well formed. -/
def WFStream : StreamOutcome → Prop
  | .connError _ => True
  | .response _ events => WFEvents events

/-- Fixture: a parsed body with no properties at all; also stands for a truthy
non-JSON body such as an HTML error page. -/
def emptyBody : Body := { error := none, email := none, images := none }

/-- Fixture: an error object carrying the invalid token code 190. -/
def authErrObj : ErrorObj :=
  { code := some 190, message := some "Error validating access token" }

/-- Fixture: a body carrying the auth marker. -/
def authBody : Body := { error := some authErrObj, email := none, images := none }

/-- Fixture: a 400 response carrying the auth marker. -/
def authResp : Resp := { statusCode := 400, body := some authBody }

/-- Fixture: an ordinary API error object without the auth marker. -/
def apiErrObj : ErrorObj :=
  { code := some 100, message := some "Unsupported get request" }

/-- Fixture: a body carrying an ordinary API error object. -/
def apiBody : Body := { error := some apiErrObj, email := none, images := none }

/-- Fixture: a 400 response carrying an ordinary API error object. -/
def apiResp : Resp := { statusCode := 400, body := some apiBody }

/-- Fixture: a small image variant. -/
def smallImg : ImageVariant := { width := 10, height := 10, source := "small-src" }

/-- Fixture: a large image variant. -/
def bigImg : ImageVariant := { width := 100, height := 100, source := "big-src" }

/-- Fixture: a media item body whose images are listed largest first, so that
sorting by ascending resolution actually reorders them. -/
def imgBody : Body := { error := none, email := none, images := some [bigImg, smallImg] }

/-- Fixture: a well-formed media stream delivering one chunk then ending. -/
def wfStreamFixture : StreamOutcome :=
  StreamOutcome.response 200 [StreamEvent.chunk "ab", StreamEvent.streamEnd]

/-- Fixture: an adapter over unit raw data producing one raw item. -/
def unitAdapter : Adapter Unit Unit :=
  { getItemSubList := fun _ => [()]
    isFolder := fun _ => true
    getItemIcon := fun _ => some "icon-url"
    getItemName := fun _ => some "album"
    getMimeType := fun _ => none
    getItemId := fun _ => some "1"
    getItemThumbnailUrl := fun _ => none
    getItemRequestPath := fun _ => some "1"
    getItemModifiedDate := fun _ => none
    getNextPagePath := fun _ _ _ => none }

/-- Fixture: the canonical item unitAdapter produces. -/
def unitItem : CanonicalItem :=
  { isFolder := true, icon := some "icon-url", name := some "album", mimeType := none,
    size := none, id := some "1", thumbnail := none, requestPath := some "1",
    modifiedDate := none }

/-- Fixture: an adapter over optional bodies producing no items. -/
def optBodyAdapter : Adapter (Option Body) Unit :=
  { getItemSubList := fun _ => []
    isFolder := fun _ => false
    getItemIcon := fun _ => none
    getItemName := fun _ => none
    getMimeType := fun _ => none
    getItemId := fun _ => none
    getItemThumbnailUrl := fun _ => none
    getItemRequestPath := fun _ => none
    getItemModifiedDate := fun _ => none
    getNextPagePath := fun _ _ _ => none }

/-! Theorems -/

/-- C1: the spec requires the classifier to be total — one value for every
pair of transport error and response, never throwing — and the neighbouring
message line of the source guards the same access correctly, so the intent is
clear; but on a response whose truthy body carries no error object (for
example a non-JSON 500 page) the read of resp.body.error.code throws a
TypeError. This theorem evaluates the embedded classifier at that failing
input and shows the thrown error. -/
theorem classify_throws_on_unstructured_body :
    Facebook.classify none (some { statusCode := 500, body := some emptyBody }) =
      Except.error (FbError.jsError
        "TypeError: Cannot read property code of undefined") := rfl

/-- C2: whenever the response body carries the invalid token marker, error
code 190, the classifier returns ProviderAuthError, whatever the status code
and whatever the transport error argument: the auth check precedes the
generic status branch. -/
theorem classify_auth_marker_wins (err : Option FbError) (r : Resp) (b : Body)
    (e : ErrorObj) (hb : r.body = some b) (he : b.error = some e)
    (hc : e.code = some 190) :
    Facebook.classify err (some r) = Except.ok (some FbError.providerAuthError) := by
  simp [Facebook.classify, hb, he, hc]

/-- Witness for C2 at a 400 response carrying the marker, with a transport
error also present. -/
theorem classify_auth_marker_wins_witness :
    authResp.body = some authBody ∧ authBody.error = some authErrObj ∧
      authErrObj.code = some 190 ∧
      Facebook.classify (some (FbError.jsError "boom")) (some authResp) =
        Except.ok (some FbError.providerAuthError) :=
  ⟨rfl, rfl, rfl,
    classify_auth_marker_wins (some (FbError.jsError "boom")) authResp authBody
      authErrObj rfl rfl rfl⟩

/-- C3 counterexample: a 502 response with a truthy body carrying no error
object has no auth marker, yet the classifier does not return the ApiError
the claim promises for every marker-free input with a response — it throws. -/
theorem classify_policy_counterexample :
    Facebook.classify none (some { statusCode := 502, body := some emptyBody }) =
      Except.error (FbError.jsError
        "TypeError: Cannot read property code of undefined") ∧
    Facebook.classify none (some { statusCode := 502, body := some emptyBody }) ≠
      Except.ok (some (FbError.providerApiError
        (some (Facebook.fallbackMessage 502)) 502)) :=
  ⟨rfl, by decide⟩

/-- C3 amended: for inputs without the auth marker whose truthy response body,
when present, carries an error object, the classifier follows the spec policy:
response with an error object — ApiError with that objects message and the
status code; response without a truthy body — ApiError with the fallback
message and the status code; no response — the raw transport error unchanged. -/
theorem classify_matches_spec_policy (err : Option FbError) (resp : Option Resp)
    (hnoauth : authCodeOf resp ≠ some 190)
    (hsafe : bodyOf resp ≠ none → (errorObjOf resp).isSome = true) :
    Facebook.classify err resp = Except.ok (specClassify err resp) := by
  cases resp with
  | none => rfl
  | some r =>
    cases hb : r.body with
    | none => simp [Facebook.classify, specClassify, hb]
    | some b =>
      cases he : b.error with
      | none =>
          have h1 : (errorObjOf (some r)).isSome = true := by
            apply hsafe
            simp [bodyOf, hb]
          rw [errorObjOf, bodyOf] at h1
          simp [hb, he] at h1
      | some e =>
          have hc : ¬ e.code = some 190 := by
            intro hcode
            apply hnoauth
            simp [authCodeOf, errorObjOf, bodyOf, hb, he, hcode]
          simp [Facebook.classify, specClassify, hb, he, hc]

/-- Witness for the amended C3 at a 400 response carrying an ordinary error
object, with a transport error also present. -/
theorem classify_matches_spec_policy_witness :
    authCodeOf (some apiResp) ≠ some 190 ∧
      (bodyOf (some apiResp) ≠ none → (errorObjOf (some apiResp)).isSome = true) ∧
      Facebook.classify (some (FbError.jsError "boom")) (some apiResp) =
        Except.ok (specClassify (some (FbError.jsError "boom")) (some apiResp)) :=
  ⟨by decide, by decide,
    classify_matches_spec_policy (some (FbError.jsError "boom")) (some apiResp)
      (by decide) (by decide)⟩

/-- Helper: a successful username lookup always comes from a 200 response with
a present body, makes exactly the identity request for the email field, and
delivers exactly the email field of that body. -/
theorem getUsername_delivered {cb : CbArgs} {ucalls : List RemoteCall}
    {v : Option String}
    (h : Facebook.getUsername cb = Except.ok (ucalls, Delivery.delivered v)) :
    ucalls = [RemoteCall.identity "email"] ∧
      ∃ ubody : Body, cb = CbArgs.response 200 (some ubody) ∧ v = ubody.email := by
  cases cb with
  | failure e =>
      simp [Facebook.getUsername, Facebook.classify] at h
  | response s b =>
      by_cases hs : s = 200
      · subst hs
        cases b with
        | none => simp [Facebook.getUsername] at h
        | some ubody =>
            simp [Facebook.getUsername] at h
            obtain ⟨h1, h2⟩ := h
            exact ⟨h1.symm, ubody, rfl, h2.symm⟩
      · simp only [Facebook.getUsername] at h
        rw [if_neg hs] at h
        cases hc : Facebook.classify none (some { statusCode := s, body := b }) with
        | error c => rw [hc] at h; simp at h
        | ok e2 => rw [hc] at h; simp at h

/-- Helper: a failed username lookup makes exactly the identity request and
delivers the classification of its callback arguments. -/
theorem getUsername_failed {cb : CbArgs} {ucalls : List RemoteCall}
    {e2 : Option FbError}
    (h : Facebook.getUsername cb = Except.ok (ucalls, Delivery.failed e2)) :
    ucalls = [RemoteCall.identity "email"] ∧ cb.isSuccess = false ∧
      Facebook.classifyCb cb = Except.ok e2 := by
  cases cb with
  | failure e =>
      simp [Facebook.getUsername, Facebook.classify] at h
      obtain ⟨h1, h2⟩ := h
      refine ⟨h1.symm, rfl, ?_⟩
      simp [Facebook.classifyCb, Facebook.classify, h2]
  | response s b =>
      by_cases hs : s = 200
      · subst hs
        cases b with
        | none => simp [Facebook.getUsername] at h
        | some ubody => simp [Facebook.getUsername] at h
      · simp only [Facebook.getUsername] at h
        rw [if_neg hs] at h
        cases hc : Facebook.classify none (some { statusCode := s, body := b }) with
        | error c => rw [hc] at h; simp at h
        | ok e3 =>
            rw [hc] at h
            simp at h
            obtain ⟨h1, h2⟩ := h
            refine ⟨h1.symm, ?_, ?_⟩
            · simp only [CbArgs.isSuccess]
              split
              · rename_i heq
                injection heq with hs2 _
                exact absurd hs2 hs
              · rfl
            · rw [Facebook.classifyCb, hc, h2]

/-- C4 counterexample: the original claim promises that every identity-lookup
failure makes the list operation deliver the classified error of that
secondary call; but when the listing succeeds and the identity lookup fails
with a 500 response whose truthy body carries no error object, the classifier
inside the username lookup throws before done is ever invoked, so the list
run ends in an escaping TypeError and no outcome at all is delivered. -/
theorem list_identity_error_counterexample :
    (CbArgs.response 500 (some emptyBody)).isSuccess = false ∧
    Facebook.list optBodyAdapter none { cursor := none }
        (CbArgs.response 200 (some emptyBody)) (CbArgs.response 500 (some emptyBody)) =
      Except.error (FbError.jsError
        "TypeError: Cannot read property code of undefined") :=
  ⟨rfl, rfl⟩

/-- C4 amended: whenever a list call completes by invoking its callback, the
remote calls made are the listing request alone or the listing request
followed by the identity request; the identity request is made exactly when
the listing request succeeded; and when the listing succeeded, the identity
lookup failed and the classification of that failure itself returned rather
than throwing, the delivered outcome is the classified error of that
secondary call. -/
theorem list_identity_only_after_success {ι : Type} (A : Adapter (Option Body) ι)
    (directory : Option String) (query : Query) (listingCb userCb : CbArgs)
    (calls : List RemoteCall) (dv : Delivery ListResult)
    (h : Facebook.list A directory query listingCb userCb = Except.ok (calls, dv)) :
    (calls = [Facebook.listingCall directory query] ∨
      calls = [Facebook.listingCall directory query, RemoteCall.identity "email"]) ∧
    (RemoteCall.identity "email" ∈ calls ↔ listingCb.isSuccess = true) ∧
    (listingCb.isSuccess = true → userCb.isSuccess = false →
      ∀ e2, Facebook.classifyCb userCb = Except.ok e2 → dv = Delivery.failed e2) := by
  cases listingCb with
  | failure e =>
      simp [Facebook.list, Facebook.classify] at h
      obtain ⟨h1, _⟩ := h
      subst h1
      refine ⟨Or.inl rfl, ?_, ?_⟩
      · simp [CbArgs.isSuccess, Facebook.listingCall]
      · intro hsucc
        simp [CbArgs.isSuccess] at hsucc
  | response s b =>
      by_cases hs : s = 200
      · subst hs
        simp only [Facebook.list, if_pos] at h
        cases hu : Facebook.getUsername userCb with
        | error c => rw [hu] at h; simp at h
        | ok p =>
            obtain ⟨ucalls, udv⟩ := p
            rw [hu] at h
            cases udv with
            | failed e2 =>
                simp at h
                obtain ⟨h1, h2⟩ := h
                obtain ⟨hcalls, hfail, hclass⟩ := getUsername_failed hu
                subst h1
                subst hcalls
                refine ⟨Or.inr rfl, ?_, ?_⟩
                · simp [CbArgs.isSuccess]
                · intro _ _ e3 hc3
                  rw [hclass] at hc3
                  injection hc3 with he3
                  rw [← h2, he3]
            | delivered username =>
                simp at h
                obtain ⟨h1, _⟩ := h
                obtain ⟨hcalls, _, _, _⟩ := getUsername_delivered hu
                subst h1
                subst hcalls
                refine ⟨Or.inr rfl, ?_, ?_⟩
                · simp [CbArgs.isSuccess]
                · intro _ husucc e3 hc3
                  obtain ⟨_, ⟨ub, hcb, _⟩⟩ := getUsername_delivered hu
                  rw [hcb] at husucc
                  simp [CbArgs.isSuccess] at husucc
      · simp only [Facebook.list] at h
        rw [if_neg hs] at h
        cases hc : Facebook.classify none (some { statusCode := s, body := b }) with
        | error c => rw [hc] at h; simp at h
        | ok e2 =>
            rw [hc] at h
            simp at h
            obtain ⟨h1, _⟩ := h
            subst h1
            refine ⟨Or.inl rfl, ?_, ?_⟩
            · constructor
              · intro hmem
                simp [Facebook.listingCall] at hmem
              · intro hsucc
                simp only [CbArgs.isSuccess] at hsucc
                split at hsucc
                · rename_i heq
                  injection heq with hs2 _
                  exact absurd hs2 hs
                · exact absurd hsucc (by simp)
            · intro hsucc
              simp only [CbArgs.isSuccess] at hsucc
              split at hsucc
              · rename_i heq
                injection heq with hs2 _
                exact absurd hs2 hs
              · exact absurd hsucc (by simp)

/-- Witness for C4: a successful root listing followed by a failed identity
lookup; both remote calls happen in order and the classified identity error is
delivered. -/
theorem list_identity_only_after_success_witness :
    Facebook.list optBodyAdapter none { cursor := none }
        (CbArgs.response 200 (some emptyBody))
        (CbArgs.failure (FbError.jsError "getaddrinfo ENOTFOUND")) =
      Except.ok ([Facebook.listingCall none { cursor := none },
        RemoteCall.identity "email"],
        Delivery.failed (some (FbError.jsError "getaddrinfo ENOTFOUND"))) ∧
    (RemoteCall.identity "email" ∈
        [Facebook.listingCall none { cursor := none }, RemoteCall.identity "email"] ↔
      (CbArgs.response 200 (some emptyBody)).isSuccess = true) :=
  ⟨by rfl,
    (list_identity_only_after_success optBodyAdapter none { cursor := none }
      (CbArgs.response 200 (some emptyBody))
      (CbArgs.failure (FbError.jsError "getaddrinfo ENOTFOUND")) _ _ (by rfl)).2.1⟩

/-- C10: whenever a list call delivers a result, the identity request for the
email field was made, the identity response was a 200 with a present body, and
the username of the result is exactly the email field of that body (absent
email giving an absent username). -/
theorem list_username_from_identity_email {ι : Type} (A : Adapter (Option Body) ι)
    (directory : Option String) (query : Query) (listingCb userCb : CbArgs)
    (calls : List RemoteCall) (r : ListResult)
    (h : Facebook.list A directory query listingCb userCb =
      Except.ok (calls, Delivery.delivered r)) :
    RemoteCall.identity "email" ∈ calls ∧
      ∃ ubody : Body, userCb = CbArgs.response 200 (some ubody) ∧
        r.username = ubody.email := by
  cases listingCb with
  | failure e =>
      simp [Facebook.list, Facebook.classify] at h
  | response s b =>
      by_cases hs : s = 200
      · subst hs
        simp only [Facebook.list, if_pos] at h
        cases hu : Facebook.getUsername userCb with
        | error c => rw [hu] at h; simp at h
        | ok p =>
            obtain ⟨ucalls, udv⟩ := p
            rw [hu] at h
            cases udv with
            | failed e2 => simp at h
            | delivered username =>
                simp at h
                obtain ⟨h1, h2⟩ := h
                obtain ⟨hcalls, ub, hcb, hv⟩ := getUsername_delivered hu
                subst h1
                subst hcalls
                refine ⟨by simp, ub, hcb, ?_⟩
                rw [← h2, Facebook.adaptData, hv]
      · simp only [Facebook.list] at h
        rw [if_neg hs] at h
        cases hc : Facebook.classify none (some { statusCode := s, body := b }) with
        | error c => rw [hc] at h; simp at h
        | ok e2 => rw [hc] at h; simp at h

/-- Witness for C10: a successful root listing with an identity response whose
body carries no email field; the result is delivered (no error) with an absent
username. -/
theorem list_username_from_identity_email_witness :
    Facebook.list optBodyAdapter none { cursor := none }
        (CbArgs.response 200 (some emptyBody)) (CbArgs.response 200 (some emptyBody)) =
      Except.ok ([Facebook.listingCall none { cursor := none },
        RemoteCall.identity "email"],
        Delivery.delivered { username := none, items := [], nextPagePath := none }) ∧
    emptyBody.email = none ∧
    RemoteCall.identity "email" ∈
      [Facebook.listingCall none { cursor := none }, RemoteCall.identity "email"] :=
  ⟨by rfl, rfl,
    (list_username_from_identity_email optBodyAdapter none { cursor := none }
      (CbArgs.response 200 (some emptyBody)) (CbArgs.response 200 (some emptyBody))
      _ _ (by rfl)).1⟩

/-- C5 counterexample: a size call whose initial metadata request fails with a
transport error delivers that classified error through the callback, not the
unknown-size completion the claim promises for every failure. -/
theorem size_meta_failure_not_swallowed :
    Facebook.size (CbArgs.failure (FbError.jsError "socket hang up"))
        (Except.error (FbError.jsError "irrelevant")) =
      Except.ok (SizeDelivery.failed (some (FbError.jsError "socket hang up"))) ∧
    Facebook.size (CbArgs.failure (FbError.jsError "socket hang up"))
        (Except.error (FbError.jsError "irrelevant")) ≠
      Except.ok SizeDelivery.unknown :=
  ⟨rfl, by decide⟩

/-- C5 amended: only the getURLMeta probe failures are swallowed: after a
successful metadata request and media URL selection, a probe rejection
completes the size call with done() carrying no error and no size value;
failures of the initial metadata request are still delivered as classified
errors. -/
theorem size_swallows_probe_failure (b : Option Body) (url : String) (e : FbError)
    (h : Facebook.getMediaUrl b = Except.ok url) :
    Facebook.size (CbArgs.response 200 b) (Except.error e) =
      Except.ok SizeDelivery.unknown := by
  simp [Facebook.size, h]

/-- Witness for the amended C5: metadata succeeds on a body with two image
variants and the probe fails with a transport error; done() is invoked bare. -/
theorem size_swallows_probe_failure_witness :
    Facebook.getMediaUrl (some imgBody) = Except.ok "big-src" ∧
    Facebook.size (CbArgs.response 200 (some imgBody))
        (Except.error (FbError.jsError "HEAD request timed out")) =
      Except.ok SizeDelivery.unknown :=
  ⟨by rfl,
    size_swallows_probe_failure (some imgBody) "big-src"
      (FbError.jsError "HEAD request timed out") (by rfl)⟩

/-- C7: every thumbnail call delivers a plain Error saying the call is not
implemented — the realization of the UnsupportedOperationError of the spec
taxonomy — and the trace of remote calls it makes is empty: no network request
is performed, for every input. -/
theorem thumbnail_not_implemented {α : Type} (input : α) :
    Facebook.thumbnail input =
      ([], Delivery.failed
        (some (FbError.jsError "call to thumbnail is not implemented"))) := rfl

/-- C9: every canonical item produced by adaptData has an absent size,
whatever the adapter, raw response, username, directory and query. -/
theorem adaptData_size_null {ρ ι : Type} (A : Adapter ρ ι) (res : ρ)
    (username : Option String) (directory : Option String) (q : Query) :
    ∀ item ∈ (Facebook.adaptData A res username directory q).items,
      item.size = none := by
  intro item hitem
  simp only [Facebook.adaptData, List.mem_map] at hitem
  obtain ⟨x, _, hx⟩ := hitem
  rw [← hx]

/-- Witness for C9 at a one-item fixture adapter. -/
theorem adaptData_size_null_witness :
    unitItem ∈ (Facebook.adaptData unitAdapter () none none { cursor := none }).items ∧
    unitItem.size = none :=
  ⟨by decide,
    adaptData_size_null unitAdapter () none none { cursor := none } unitItem
      (by decide)⟩

/-- Helper: the element getLast? returns is a member of the list. -/
theorem mem_of_getLast_opt {α : Type} {l : List α} {m : α}
    (h : l.getLast? = some m) : m ∈ l := by
  cases l with
  | nil => simp at h
  | cons a t =>
      have h2 := List.getLast?_eq_getLast_of_ne_nil (List.cons_ne_nil a t)
      rw [h] at h2
      injection h2 with h3
      rw [h3]
      exact List.getLast_mem (List.cons_ne_nil a t)

/-- Helper: in a list sorted by ascending resolution, every member has
resolution at most that of the last element. -/
theorem sorted_resolution_le_getLast {l : List ImageVariant}
    (hs : List.Sorted (fun a b => a.resolution ≤ b.resolution) l)
    {m : ImageVariant} (hm : l.getLast? = some m) :
    ∀ x ∈ l, x.resolution ≤ m.resolution := by
  induction hs with
  | nil => simp at hm
  | @cons a t ha _ ih =>
      intro x hx
      cases t with
      | nil =>
          simp at hm
          simp at hx
          rw [hx, hm]
      | cons bb t2 =>
          rw [List.getLast?_cons_cons] at hm
          rcases List.mem_cons.mp hx with hxa | hxt
          · rw [hxa]
            exact ha m (mem_of_getLast_opt hm)
          · exact ih hm x hxt

/-- C8: for a media item body with a nonempty images list, the sorted variant
sequence is ascending in resolution and a permutation of the original, and the
media URL the provider selects for download and size is the source of the last
sorted element, a variant of maximal resolution among all listed variants. -/
theorem getMediaUrl_highest_resolution (b : Body) (imgs : List ImageVariant)
    (himgs : b.images = some imgs) (hne : imgs ≠ []) :
    List.Sorted (fun a b => a.resolution ≤ b.resolution) (sortImages imgs) ∧
    (sortImages imgs).Perm imgs ∧
    ∃ img ∈ imgs, Facebook.getMediaUrl (some b) = Except.ok img.source ∧
      ∀ j ∈ imgs, j.resolution ≤ img.resolution := by
  haveI htot : IsTotal ImageVariant (fun a b => a.resolution ≤ b.resolution) :=
    ⟨fun a b => Nat.le_total a.resolution b.resolution⟩
  haveI htr : IsTrans ImageVariant (fun a b => a.resolution ≤ b.resolution) :=
    ⟨fun _ _ _ hab hbc => le_trans hab hbc⟩
  have hsorted : List.Sorted (fun a b => a.resolution ≤ b.resolution) (sortImages imgs) :=
    List.sorted_insertionSort (fun a b => a.resolution ≤ b.resolution) imgs
  have hperm : (sortImages imgs).Perm imgs := by
    unfold sortImages
    exact List.perm_insertionSort (fun a b => a.resolution ≤ b.resolution) imgs
  have hne2 : sortImages imgs ≠ [] := by
    intro h0
    apply hne
    have h1 : ([] : List ImageVariant).Perm imgs := h0 ▸ hperm
    exact h1.symm.eq_nil
  have hlast := List.getLast?_eq_getLast_of_ne_nil hne2
  refine ⟨hsorted, hperm, (sortImages imgs).getLast hne2, ?_, ?_, ?_⟩
  · exact hperm.subset (List.getLast_mem hne2)
  · simp [Facebook.getMediaUrl, himgs, hlast]
  · intro j hj
    exact sorted_resolution_le_getLast hsorted hlast j (hperm.symm.subset hj)

/-- Witness for C8: a body listing the large variant before the small one; the
selected URL is the source of the large variant. -/
theorem getMediaUrl_highest_resolution_witness :
    imgBody.images = some [bigImg, smallImg] ∧
    ([bigImg, smallImg] : List ImageVariant) ≠ [] ∧
    (∃ img ∈ [bigImg, smallImg],
      Facebook.getMediaUrl (some imgBody) = Except.ok img.source ∧
      ∀ j ∈ [bigImg, smallImg], j.resolution ≤ img.resolution) :=
  ⟨rfl, by decide,
    (getMediaUrl_highest_resolution imgBody [bigImg, smallImg] rfl (by decide)).2.2⟩

/-- Helper: a list is pairwise related when the relation holds universally. -/
theorem pairwise_of_rel_total {α : Type} {R : α → α → Prop} (h : ∀ a b, R a b) :
    ∀ l : List α, l.Pairwise R
  | [] => List.Pairwise.nil
  | a :: l => List.Pairwise.cons (fun b _ => h a b) (pairwise_of_rel_total h l)

/-- Helper: stream signals distribute over appended event lists. -/
theorem streamSignals_append (is200 : Bool) (l1 l2 : List StreamEvent) :
    Facebook.streamSignals is200 (l1 ++ l2) =
      Facebook.streamSignals is200 l1 ++ Facebook.streamSignals is200 l2 := by
  simp [Facebook.streamSignals]

/-- Helper: with the data handler attached, a run of chunks maps to the
matching chunk signals. -/
theorem streamSignals_chunks_true (cs : List String) :
    Facebook.streamSignals true (cs.map StreamEvent.chunk) =
      cs.map (fun c => { error := none, chunk := some c }) := by
  induction cs with
  | nil => rfl
  | cons c cs ih =>
      show Facebook.eventSignals true (StreamEvent.chunk c) ++
          Facebook.streamSignals true (cs.map StreamEvent.chunk) = _
      rw [ih]
      rfl

/-- Helper: with no data handler attached, a run of chunks produces no
signals. -/
theorem streamSignals_chunks_false (cs : List String) :
    Facebook.streamSignals false (cs.map StreamEvent.chunk) = [] := by
  induction cs with
  | nil => rfl
  | cons c cs ih =>
      show Facebook.eventSignals false (StreamEvent.chunk c) ++
          Facebook.streamSignals false (cs.map StreamEvent.chunk) = _
      rw [ih]
      rfl

/-- C6: for every download run over a well-formed stream that completes
without an escaping exception, the delivered onData calls never carry a data
chunk strictly after an error signal, and never carry an error strictly after
the completion signal, covering both the metadata-phase and the
streaming-phase failure cases. -/
theorem download_no_mixing (metaCb : CbArgs) (stream : StreamOutcome)
    (sigs : List Signal) (hwf : WFStream stream)
    (h : Facebook.download metaCb stream = Except.ok sigs) :
    downloadOrdered sigs := by
  have hchunkrel : ∀ (c : String) (y : Signal),
      (({ error := none, chunk := some c } : Signal).isError = true →
        y.isChunk = false) ∧
      (({ error := none, chunk := some c } : Signal).isDone = true →
        y.isError = false) := by
    intro c y
    constructor
    · intro hh
      simp [Signal.isError] at hh
    · intro hh
      simp [Signal.isDone] at hh
  cases metaCb with
  | failure e =>
      simp [Facebook.download, Facebook.classify] at h
      rw [← h]
      exact List.pairwise_singleton _ _
  | response s b =>
      by_cases hs : s = 200
      · subst hs
        simp only [Facebook.download, if_pos] at h
        cases hm : Facebook.getMediaUrl b with
        | error c => rw [hm] at h; simp at h
        | ok url =>
            rw [hm] at h
            cases stream with
            | connError e =>
                simp at h
                rw [← h]
                exact List.pairwise_singleton _ _
            | response s2 events =>
                dsimp only at h
                by_cases hs2 : s2 = 200
                · subst hs2
                  rw [if_pos rfl] at h
                  simp at h
                  rw [← h]
                  have hwf2 : WFEvents events := hwf
                  rcases hwf2 with ⟨cs, rfl⟩ | ⟨cs, e2, rfl⟩
                  · unfold downloadOrdered
                    rw [streamSignals_append, streamSignals_chunks_true]
                    apply List.pairwise_append.mpr
                    refine ⟨?_, ?_, ?_⟩
                    · exact List.pairwise_map.mpr
                        (pairwise_of_rel_total (fun a c => hchunkrel a _) cs)
                    · exact List.pairwise_singleton _ _
                    · intro x hx y _
                      obtain ⟨c, _, rfl⟩ := List.mem_map.mp hx
                      exact hchunkrel c y
                  · unfold downloadOrdered
                    rw [streamSignals_append, streamSignals_chunks_true]
                    apply List.pairwise_append.mpr
                    refine ⟨?_, ?_, ?_⟩
                    · exact List.pairwise_map.mpr
                        (pairwise_of_rel_total (fun a c => hchunkrel a _) cs)
                    · exact List.pairwise_singleton _ _
                    · intro x hx y _
                      obtain ⟨c, _, rfl⟩ := List.mem_map.mp hx
                      exact hchunkrel c y
                · rw [if_neg hs2] at h
                  simp [Facebook.classify] at h
                  rw [← h]
                  have hwf2 : WFEvents events := hwf
                  rcases hwf2 with ⟨cs, rfl⟩ | ⟨cs, e2, rfl⟩
                  · unfold downloadOrdered
                    rw [streamSignals_append, streamSignals_chunks_false]
                    apply List.Pairwise.cons
                    · intro y hy
                      simp [Facebook.streamSignals, Facebook.eventSignals] at hy
                      rw [hy]
                      constructor
                      · intro _
                        rfl
                      · intro hd
                        simp [Signal.isDone] at hd
                    · exact List.pairwise_singleton _ _
                  · unfold downloadOrdered
                    rw [streamSignals_append, streamSignals_chunks_false]
                    apply List.Pairwise.cons
                    · intro y hy
                      simp [Facebook.streamSignals, Facebook.eventSignals] at hy
                      rw [hy]
                      constructor
                      · intro _
                        rfl
                      · intro hd
                        simp [Signal.isDone] at hd
                    · exact List.pairwise_singleton _ _
      · simp only [Facebook.download] at h
        rw [if_neg hs] at h
        cases hc : Facebook.classify none (some { statusCode := s, body := b }) with
        | error c => rw [hc] at h; simp at h
        | ok e2 =>
            rw [hc] at h
            simp at h
            rw [← h]
            exact List.pairwise_singleton _ _

/-- Witness for C6: a successful metadata phase and a 200 stream delivering
one chunk then ending; the signals are one chunk then the completion. -/
theorem download_no_mixing_witness :
    WFStream wfStreamFixture ∧
    Facebook.download (CbArgs.response 200 (some imgBody)) wfStreamFixture =
      Except.ok [{ error := none, chunk := some "ab" },
        { error := none, chunk := none }] ∧
    downloadOrdered [{ error := none, chunk := some "ab" },
      { error := none, chunk := none }] :=
  ⟨Or.inl ⟨["ab"], rfl⟩, by rfl,
    download_no_mixing (CbArgs.response 200 (some imgBody)) wfStreamFixture _
      (Or.inl ⟨["ab"], rfl⟩) (by rfl)⟩
